import Mathlib

/-!
Shallow embedding of the excel_process repository: an agent orchestration
loop (two variants, the CLI script excel_process.py and the Streamlit app
app.py) that sends a conversation to a chat model, dispatches the tool
calls the model returns (run_code, copy_file_to_sandbox,
copy_file_from_sandbox) and appends one tool message per call until the
model stops calling tools.

External collaborators are modelled as oracles:
the code sandbox is a `Sandbox` record of three functions returning
`Except String _` (an `Except.error` models a raised Python exception,
covering session start, library install and execution inside the
`with SandboxSession` block); the chat model is a script, a list of
`Except String AssistantMsg` consumed one entry per loop iteration
(an `Except.error` entry models the API call raising); pandas
`read_excel` is a function `String → Except String DataFrame`.
Print/display side effects are not modelled except where the loop
records them (the Streamlit output list and the info/warning banners).
Tool-call arguments are modelled as already-parsed records
(`json.loads` succeeding); `pyStr` renders a possibly-missing argument
the way a Python f-string renders `None`.
-/

deriving instance DecidableEq for Except

namespace ExcelAgent

/-- Message roles of the chat API. -/
inductive Role
  | system
  | user
  | assistant
  | tool
deriving DecidableEq, Repr

/-- Parsed tool-call arguments: `function_args.get(key)` yields `none`
when the key is absent. -/
structure ToolArgs where
  lang : Option String := none
  code : Option String := none
  libraries : Option (List String) := none
  local_path : Option String := none
  sandbox_path : Option String := none
deriving DecidableEq, Repr

/-- A model-issued tool call: identifier, function name, parsed arguments. -/
structure ToolCall where
  id : String
  name : String
  args : ToolArgs
deriving DecidableEq, Repr

/-- One message of the conversation sent to the chat model. -/
structure Message where
  role : Role
  content : Option String
  tool_call_id : Option String := none
  name : Option String := none
  tool_calls : List ToolCall := []
deriving DecidableEq, Repr

/-- An assistant message returned by the model: optional text plus the
list of tool calls (`tool_calls` empty models a None/empty field). -/
structure AssistantMsg where
  content : Option String
  tool_calls : List ToolCall
deriving DecidableEq, Repr

/-- The external code sandbox (llm_sandbox.SandboxSession), as an oracle.
`run lang code libraries` yields the captured output text of one
ephemeral session, or the text of the Python exception it raised. -/
structure Sandbox where
  run : String → String → Option (List String) → Except String String
  copy_to_runtime : String → String → Except String Unit
  copy_from_runtime : String → String → Except String Unit

/-- How a Python f-string renders an argument that may be None. -/
def pyStr : Option String → String
  | some s => s
  | none => "None"

/-- Python str.strip(): drop leading and trailing whitespace. -/
def pyStrip (s : String) : String :=
  String.mk (((s.data.dropWhile Char.isWhitespace).reverse.dropWhile Char.isWhitespace).reverse)

/-- os.path.basename: the part of the path after the last slash. -/
def basename (p : String) : String :=
  String.mk ((p.data.reverse.takeWhile (fun c => c ≠ '/')).reverse)

/-- messages[0]["content"] += suffix (the first message's content is a
string wherever the source does this). -/
def appendToFirstContent : List Message → String → List Message
  | [], _ => []
  | m :: ms, s => { m with content := some ((m.content.getD "") ++ s) } :: ms

/-- The advisory string run_code substitutes for empty output. -/
def noOutputAdvisory : String :=
  "执行成功，但没有输出结果。请尝试添加print语句来显示结果。"

/-- The tool-role message appended for one executed tool call. -/
def toolMessage (tc : ToolCall) (result : String) : Message :=
  { role := Role.tool, content := some result, tool_call_id := some tc.id,
    name := some tc.name }

/-- The conversation entry for an assistant message appended by
`messages.append(response_message)`. -/
def assistantMessage (am : AssistantMsg) : Message :=
  { role := Role.assistant, content := am.content, tool_calls := am.tool_calls }

/-- The Python error message for reading the never-assigned local
variable `result` on an unrecognised function name. -/
def unboundResultError : String :=
  "UnboundLocalError: local variable result referenced before assignment"

/-- The three function names the dispatch recognises. -/
def knownToolNames : List String :=
  ["run_code", "copy_file_to_sandbox", "copy_file_from_sandbox"]

namespace ExcelProcess

/-- excel_process.py run_code: run the code in a fresh sandbox session;
substitute the advisory string when the captured text is empty or
all-whitespace; a sandbox exception propagates (no try/except). -/
def run_code (sb : Sandbox) (lang : String) (code : String)
    (libraries : Option (List String)) : Except String String :=
  match sb.run lang code libraries with
  | Except.error e => Except.error e
  | Except.ok result =>
    if result = "" || pyStrip result = "" then
      Except.ok noOutputAdvisory
    else
      Except.ok result

/-- excel_process.py copy_file_to_sandbox: copy into a fresh session;
any exception is caught and converted to a failure string. -/
def copy_file_to_sandbox (sb : Sandbox) (local_path : String) (sandbox_path : String) : String :=
  match sb.copy_to_runtime local_path sandbox_path with
  | Except.ok _ => "文件已成功复制到沙盒: " ++ local_path ++ " -> " ++ sandbox_path
  | Except.error e => "复制文件失败: " ++ e

/-- excel_process.py copy_file_from_sandbox: copy out of a fresh session;
any exception is caught and converted to a failure string. -/
def copy_file_from_sandbox (sb : Sandbox) (sandbox_path : String) (local_path : String) : String :=
  match sb.copy_from_runtime sandbox_path local_path with
  | Except.ok _ => "文件已成功从沙盒复制: " ++ sandbox_path ++ " -> " ++ local_path
  | Except.error e => "复制文件失败: " ++ e

/-- The if/elif dispatch on function_name inside the CLI tool loop.
`prev` is the current value of the function-scoped local `result`
(None while no branch has ever assigned it in this run_agent call);
an unrecognised name reaches the tool-message append with `result`
unbound (raises) or stale (reuses the previous value). -/
def dispatchToolCall (sb : Sandbox) (prev : Option String) (tc : ToolCall) :
    Except String String :=
  if tc.name = "run_code" then
    run_code sb (pyStr tc.args.lang) (pyStr tc.args.code) tc.args.libraries
  else if tc.name = "copy_file_to_sandbox" then
    Except.ok (copy_file_to_sandbox sb (pyStr tc.args.local_path) (pyStr tc.args.sandbox_path))
  else if tc.name = "copy_file_from_sandbox" then
    Except.ok (copy_file_from_sandbox sb (pyStr tc.args.sandbox_path) (pyStr tc.args.local_path))
  else
    match prev with
    | some r => Except.ok r
    | none => Except.error unboundResultError

/-- The for-loop over one assistant turn's tool calls: dispatch each call
in emitted order, appending one tool message per call; returns the tool
messages and the final value of the local `result`. -/
def processToolCalls (sb : Sandbox) :
    Option String → List ToolCall → Except String (List Message × Option String)
  | prev, [] => Except.ok ([], prev)
  | prev, tc :: rest =>
    match dispatchToolCall sb prev tc with
    | Except.error e => Except.error e
    | Except.ok r =>
      match processToolCalls sb (some r) rest with
      | Except.error e => Except.error e
      | Except.ok (tms, last) => Except.ok (toolMessage tc r :: tms, last)

/-- Observable outcome of a terminating CLI run_agent call. -/
structure Outcome where
  final : Option String
  finalContent : Option String
  modelCalls : Nat
  dispatchRounds : Nat
  conversation : List Message
deriving DecidableEq, Repr

/-- The CLI while-True loop: one scripted model response per iteration;
a turn with tool calls is dispatched and the loop re-sends, a turn
without tool calls terminates (running the generated-files copy-out
block, which concatenation makes a TypeError when content is None). -/
def runLoop (sb : Sandbox) (cwd : String) :
    List (Except String AssistantMsg) → List Message → List String → Option String →
    Nat → Nat → Except String Outcome
  | [], _, _, _, _, _ => Except.error "model call failed: no response from service"
  | Except.error e :: _, _, _, _, _, _ => Except.error e
  | Except.ok am :: rest, messages, generated_files, prev, mc, dr =>
    if am.tool_calls.isEmpty then
      if generated_files.isEmpty then
        Except.ok { final := am.content, finalContent := am.content, modelCalls := mc + 1,
                    dispatchRounds := dr, conversation := messages ++ [assistantMessage am] }
      else
        let local_files := generated_files.map fun sandbox_file =>
          cwd ++ "/output_" ++ basename sandbox_file
        if local_files.isEmpty then
          Except.ok { final := am.content, finalContent := am.content, modelCalls := mc + 1,
                      dispatchRounds := dr, conversation := messages ++ [assistantMessage am] }
        else
          match am.content with
          | none => Except.error "TypeError: unsupported operand type for +"
          | some c =>
            Except.ok { final := some (c ++ "\n\n生成的文件已复制到本地:\n" ++
                          String.intercalate "\n" local_files),
                        finalContent := am.content, modelCalls := mc + 1,
                        dispatchRounds := dr, conversation := messages ++ [assistantMessage am] }
    else
      match processToolCalls sb prev am.tool_calls with
      | Except.error e => Except.error e
      | Except.ok (tms, last) =>
        runLoop sb cwd rest ((messages ++ [assistantMessage am]) ++ tms)
          generated_files last (mc + 1) (dr + 1)

/-- The initial conversation the CLI run_agent builds: a single user
message; when a file path is supplied, the staged sandbox path
(os.path.join of "/sandbox" and the basename) is appended to it. -/
def run_agent_init (sb : Sandbox) (user_input : String)
    (excel_file_path : Option String) : List Message :=
  let messages : List Message := [{ role := Role.user, content := some user_input }]
  match excel_file_path with
  | none => messages
  | some path =>
    let sandbox_dir := "/sandbox"
    let excel_filename := basename path
    let sandbox_excel_path := sandbox_dir ++ "/" ++ excel_filename
    let _ := copy_file_to_sandbox sb path sandbox_dir
    appendToFirstContent messages
      ("\n\nExcel文件已上传到沙盒环境，路径为: " ++ sandbox_excel_path)

/-- excel_process.py run_agent: build the initial conversation, then run
the tool-dispatch loop with generated_files initialised empty (no
handler ever appends to it in this variant). -/
def run_agent (sb : Sandbox) (script : List (Except String AssistantMsg))
    (user_input : String) (excel_file_path : Option String) (cwd : String) :
    Except String Outcome :=
  runLoop sb cwd script (run_agent_init sb user_input excel_file_path) [] none 0 0

/-- The __main__ block of excel_process.py as an exit status: exit(1)
when a non-empty path does not exist; otherwise the status CPython gives
the process (0 on normal return of run_agent, nonzero when an uncaught
exception propagates out of it). -/
def mainExit (sb : Sandbox) (script : List (Except String AssistantMsg))
    (pathExists : String → Bool) (excel_path : String) (user_request : String)
    (cwd : String) : Nat :=
  if excel_path ≠ "" ∧ pathExists excel_path = false then 1
  else
    match run_agent sb script user_request
        (if excel_path ≠ "" then some excel_path else none) cwd with
    | Except.error _ => 1
    | Except.ok _ => 0

end ExcelProcess

namespace App

/-- One entry of the Streamlit all_outputs display list. -/
inductive Output
  | ai (content : String)
  | code (lang : Option String) (content : String)
  | result (content : String)
  | info (content : String)
  | files (content : List String)
deriving DecidableEq, Repr

/-- The ai display entry appended when the assistant message carries
non-empty text (`if response_message.content:`). -/
def aiEvents : Option String → List Output
  | some c => if c ≠ "" then [Output.ai c] else []
  | none => []

/-- app.py run_code: identical to the CLI variant (keep_template only
changes the session, which the oracle absorbs). -/
def run_code (sb : Sandbox) (lang : String) (code : String)
    (libraries : Option (List String)) : Except String String :=
  match sb.run lang code libraries with
  | Except.error e => Except.error e
  | Except.ok result =>
    if result = "" || pyStrip result = "" then
      Except.ok noOutputAdvisory
    else
      Except.ok result

/-- app.py copy_file_to_sandbox: identical to the CLI variant. -/
def copy_file_to_sandbox (sb : Sandbox) (local_path : String) (sandbox_path : String) : String :=
  match sb.copy_to_runtime local_path sandbox_path with
  | Except.ok _ => "文件已成功复制到沙盒: " ++ local_path ++ " -> " ++ sandbox_path
  | Except.error e => "复制文件失败: " ++ e

/-- app.py copy_file_from_sandbox: identical to the CLI variant. -/
def copy_file_from_sandbox (sb : Sandbox) (sandbox_path : String) (local_path : String) : String :=
  match sb.copy_from_runtime sandbox_path local_path with
  | Except.ok _ => "文件已成功从沙盒复制: " ++ sandbox_path ++ " -> " ++ local_path
  | Except.error e => "复制文件失败: " ++ e

/-- The if/elif dispatch inside the app tool loop. Besides the result
string it yields the display entries it appends and the additions to
generated_files (only the copy_file_from_sandbox branch appends its
local_path argument). An unrecognised name reaches
log_tool_result(function_name, result) with `result` unbound or stale,
exactly as in the CLI variant. -/
def dispatchToolCall (sb : Sandbox) (prev : Option String) (tc : ToolCall) :
    Except String (String × List Output × List String) :=
  if tc.name = "run_code" then
    match run_code sb (pyStr tc.args.lang) (pyStr tc.args.code) tc.args.libraries with
    | Except.error e => Except.error e
    | Except.ok r =>
      Except.ok (r, [Output.code tc.args.lang (pyStr tc.args.code), Output.result r], [])
  else if tc.name = "copy_file_to_sandbox" then
    let r := copy_file_to_sandbox sb (pyStr tc.args.local_path) (pyStr tc.args.sandbox_path)
    Except.ok (r, [Output.info r], [])
  else if tc.name = "copy_file_from_sandbox" then
    let r := copy_file_from_sandbox sb (pyStr tc.args.sandbox_path) (pyStr tc.args.local_path)
    Except.ok (r, [Output.info r], [pyStr tc.args.local_path])
  else
    match prev with
    | some r => Except.ok (r, [], [])
    | none => Except.error unboundResultError

/-- The for-loop over one assistant turn's tool calls in the app loop. -/
def processToolCalls (sb : Sandbox) :
    Option String → List ToolCall →
    Except String (List Message × List Output × List String × Option String)
  | prev, [] => Except.ok ([], [], [], prev)
  | prev, tc :: rest =>
    match dispatchToolCall sb prev tc with
    | Except.error e => Except.error e
    | Except.ok (r, outs, gens) =>
      match processToolCalls sb (some r) rest with
      | Except.error e => Except.error e
      | Except.ok (tms, outs2, gens2, last) =>
        Except.ok (toolMessage tc r :: tms, outs ++ outs2, gens ++ gens2, last)

/-- Observable outcome of a terminating app run_agent call. `final` is
the final_result string the code computes (content plus trailer);
`outputs` is the all_outputs display list it rendered. -/
structure Outcome where
  final : Option String
  finalContent : Option String
  modelCalls : Nat
  dispatchRounds : Nat
  conversation : List Message
  outputs : List Output
  generated_files : List String
deriving DecidableEq, Repr

/-- The app while-True loop. On a turn without tool calls it computes
final_result = content, and when generated_files is non-empty appends
the trailer (a TypeError when content is None) and a files display
entry, then breaks. -/
def runLoop (sb : Sandbox) :
    List (Except String AssistantMsg) → List Message → List Output → List String →
    Option String → Nat → Nat → Except String Outcome
  | [], _, _, _, _, _, _ => Except.error "model call failed: no response from service"
  | Except.error e :: _, _, _, _, _, _, _ => Except.error e
  | Except.ok am :: rest, messages, all_outputs, generated_files, prev, mc, dr =>
    if am.tool_calls.isEmpty then
      if generated_files.isEmpty then
        Except.ok { final := am.content, finalContent := am.content, modelCalls := mc + 1,
                    dispatchRounds := dr,
                    conversation := messages ++ [assistantMessage am],
                    outputs := all_outputs ++ aiEvents am.content,
                    generated_files := generated_files }
      else
        match am.content with
        | none => Except.error "TypeError: unsupported operand type for +"
        | some c =>
          Except.ok { final := some (c ++ "\n\n生成的文件:\n" ++
                        String.intercalate "\n" generated_files),
                      finalContent := am.content, modelCalls := mc + 1,
                      dispatchRounds := dr,
                      conversation := messages ++ [assistantMessage am],
                      outputs := (all_outputs ++ aiEvents am.content) ++
                        [Output.files generated_files],
                      generated_files := generated_files }
    else
      match processToolCalls sb prev am.tool_calls with
      | Except.error e => Except.error e
      | Except.ok (tms, outs, gens, last) =>
        runLoop sb rest ((messages ++ [assistantMessage am]) ++ tms)
          ((all_outputs ++ aiEvents am.content) ++ outs)
          (generated_files ++ gens) last (mc + 1) (dr + 1)

/-- The pandas DataFrame facts the preview extraction reads, as an
oracle record. -/
structure DataFrame where
  nrows : Nat
  ncols : Nat
  columns : List String
  headStr : Nat → String
  dtypesStr : String

/-- The Excel preview text built from a successfully read DataFrame. -/
def excelInfo (excel_filename : String) (df : DataFrame) : String :=
  let preview_rows := min 5 df.nrows
  let excel_preview := df.headStr preview_rows
  let columns_info := "列名: " ++ String.intercalate ", " df.columns
  let dtypes_info := "数据类型:\n" ++ df.dtypesStr
  "\n\nExcel文件预览信息:\n文件名: " ++ excel_filename ++ "\n总行数: " ++
    toString df.nrows ++ "\n总列数: " ++ toString df.ncols ++ "\n" ++ columns_info ++
    "\n\n前" ++ toString preview_rows ++ "行数据预览:\n" ++ excel_preview ++
    "\n\n" ++ dtypes_info

/-- The fixed system prompt of app.py (the triple-quoted source string,
continuation-line indentation included). -/
def systemPrompt : String :=
  "你是一位Excel数据分析专家，擅长使用Python进行数据处理和可视化。请根据用户的需求，生成并执行相应的代码来分析Excel数据。\n            所有的数据分析都应当在沙盒中进行，为了捕获程序运行的状态和结果，在代码中用print()语句把你想了解的信息输出。\n            如果涉及到生成图片或产生其他文件，除了在界面上渲染显示外，还应将其从沙盒环境复制到外部存储。\n            如果要作图，由于中文字体可能出现显示问题，所以图片中文字一律使用英文。"

/-- What run_agent builds before the loop: the messages plus the info
and warning banners shown. -/
structure InitResult where
  messages : List Message
  infos : List String
  warnings : List String
deriving DecidableEq, Repr

/-- app.py run_agent before the loop: the conversation starts as
[system prompt, user request, canned assistant acknowledgement]; when a
file is supplied the copy-in result is shown as an info banner and a
path notice (plus the preview when read_excel succeeds, or a warning
banner when it raises) is appended to the content of messages[0], the
system message. -/
def run_agent_init (sb : Sandbox) (read_excel : String → Except String DataFrame)
    (user_input : String) (excel_file_path : Option String) : InitResult :=
  let messages : List Message :=
    [{ role := Role.system, content := some systemPrompt },
     { role := Role.user, content := some user_input },
     { role := Role.assistant, content := some "好的，请稍等，我正在分析您的需求并生成代码。" }]
  match excel_file_path with
  | none => { messages := messages, infos := [], warnings := [] }
  | some path =>
    let sandbox_dir := "/sandbox/"
    let excel_filename := basename path
    let sandbox_excel_path := sandbox_dir ++ excel_filename
    let copy_result := copy_file_to_sandbox sb path sandbox_dir
    match read_excel path with
    | Except.ok df =>
      { messages := appendToFirstContent messages
          ("\n\nExcel文件已上传到沙盒环境，路径为: " ++ sandbox_excel_path ++
            excelInfo excel_filename df),
        infos := [copy_result], warnings := [] }
    | Except.error e =>
      { messages := appendToFirstContent messages
          ("\n\nExcel文件已上传到沙盒环境，路径为: " ++ sandbox_excel_path),
        infos := [copy_result], warnings := ["无法提取Excel预览: " ++ e] }

/-- app.py run_agent: initial construction followed by the display loop. -/
def run_agent (sb : Sandbox) (read_excel : String → Except String DataFrame)
    (script : List (Except String AssistantMsg)) (user_input : String)
    (excel_file_path : Option String) : InitResult × Except String Outcome :=
  let ini := run_agent_init sb read_excel user_input excel_file_path
  (ini, runLoop sb script ini.messages [] [] none 0 0)

end App

/-- The local_path arguments of the copy_file_from_sandbox calls a turn
dispatches (what the app loop adds to generated_files). -/
def turnCopyFromPaths (tcs : List ToolCall) : List String :=
  tcs.filterMap fun tc =>
    if tc.name = "copy_file_from_sandbox" then some (pyStr tc.args.local_path) else none

/-- The copy_file_from_sandbox local paths accumulated over the turns a
scripted run processes (processing stops at the first response without
tool calls or with a model error). -/
def scriptCopyFromPaths : List (Except String AssistantMsg) → List String
  | [] => []
  | Except.error _ :: _ => []
  | Except.ok am :: rest =>
    if am.tool_calls.isEmpty then []
    else turnCopyFromPaths am.tool_calls ++ scriptCopyFromPaths rest

/-- A sandbox whose every run yields the text out1 and whose copies
succeed. -/
def sbOk : Sandbox :=
  { run := fun _ _ _ => Except.ok "out1",
    copy_to_runtime := fun _ _ => Except.ok (),
    copy_from_runtime := fun _ _ => Except.ok () }

/-- A sandbox whose every primitive raises with text boom. -/
def sbFail : Sandbox :=
  { run := fun _ _ _ => Except.error "boom",
    copy_to_runtime := fun _ _ => Except.error "boom",
    copy_from_runtime := fun _ _ => Except.error "boom" }

/-- A sandbox whose runs capture whitespace-only output. -/
def sbWs : Sandbox :=
  { run := fun _ _ _ => Except.ok "  \n ",
    copy_to_runtime := fun _ _ => Except.ok (),
    copy_from_runtime := fun _ _ => Except.ok () }

/-- A read_excel oracle that raises with text boom. -/
def rdFail : String → Except String App.DataFrame := fun _ => Except.error "boom"

/-- A small fixed DataFrame. -/
def dfOk : App.DataFrame :=
  { nrows := 3, ncols := 2, columns := ["A", "B"],
    headStr := fun _ => "rows", dtypesStr := "A    int64" }

/-- A read_excel oracle yielding the small fixed DataFrame. -/
def rdOk : String → Except String App.DataFrame := fun _ => Except.ok dfOk

/-- A run_code tool call. -/
def runCodeCall : ToolCall :=
  { id := "call_a", name := "run_code",
    args := { lang := some "python", code := some "print(1)" } }

/-- A copy_file_from_sandbox tool call. -/
def copyFromCall : ToolCall :=
  { id := "call_c", name := "copy_file_from_sandbox",
    args := { sandbox_path := some "/sandbox/out.png", local_path := some "/tmp/out.png" } }

/-- A tool call whose function name no dispatch branch recognises. -/
def mysteryCall : ToolCall :=
  { id := "call_b", name := "mystery_tool", args := {} }

/-- A scripted model: one copy-out turn, then a final answer. -/
def fetchScript : List (Except String AssistantMsg) :=
  [Except.ok { content := some "copying", tool_calls := [copyFromCall] },
   Except.ok { content := some "done", tool_calls := [] }]

/-- A scripted model: a run_code turn, then a turn whose only call has
an unrecognised name, then a final answer. -/
def staleResultScript : List (Except String AssistantMsg) :=
  [Except.ok { content := some "step1", tool_calls := [runCodeCall] },
   Except.ok { content := none, tool_calls := [mysteryCall] },
   Except.ok { content := some "done", tool_calls := [] }]

/-- Appending strings appends their character lists. -/
lemma str_data_append (x y : String) : (x ++ y).data = x.data ++ y.data := rfl

/-- A character list is an infix of the data of a string it decomposes. -/
lemma substr_of_eq {s : String} {l : List Char} (pre post : List Char)
    (h : s.data = pre ++ l ++ post) : l <:+: s.data :=
  ⟨pre, post, h.symm⟩

/-- C1: for every invocation of run_code, when the sandbox's captured
text is empty or all-whitespace the tool result is the fixed advisory
string verbatim, and otherwise it is the sandbox text unmodified — in
both the CLI and the Streamlit variant. -/
theorem run_code_advisory_substitution (sb : Sandbox) (lang code : String)
    (libraries : Option (List String)) (text : String)
    (h : sb.run lang code libraries = Except.ok text) :
    (pyStrip text = "" →
      ExcelProcess.run_code sb lang code libraries = Except.ok noOutputAdvisory ∧
      App.run_code sb lang code libraries = Except.ok noOutputAdvisory) ∧
    (pyStrip text ≠ "" →
      ExcelProcess.run_code sb lang code libraries = Except.ok text ∧
      App.run_code sb lang code libraries = Except.ok text) := by
  unfold ExcelProcess.run_code App.run_code
  rw [h]
  constructor
  · intro hw
    simp [hw]
  · intro hw
    have hne : text ≠ "" := by
      intro h0
      subst h0
      exact hw rfl
    simp [hne, hw]

theorem run_code_advisory_substitution_witness :
    (ExcelProcess.run_code sbWs "python" "print(1)" none = Except.ok noOutputAdvisory) ∧
    (ExcelProcess.run_code sbOk "python" "print(1)" none = Except.ok "out1") :=
  ⟨((run_code_advisory_substitution sbWs "python" "print(1)" none "  \n " rfl).1
      (by decide)).1,
   ((run_code_advisory_substitution sbOk "python" "print(1)" none "out1" rfl).2
      (by decide)).1⟩

/-- C4: the two file-copy tools are total String-valued functions —
whatever the sandbox copy primitive does, including raising — and the
returned text contains both paths on success, or the exception text on
failure; the Streamlit variant computes the same strings as the CLI
variant. -/
theorem copy_tools_textual_results (sb : Sandbox) (a b : String) :
    (App.copy_file_to_sandbox sb a b = ExcelProcess.copy_file_to_sandbox sb a b) ∧
    (App.copy_file_from_sandbox sb a b = ExcelProcess.copy_file_from_sandbox sb a b) ∧
    (∀ u, sb.copy_to_runtime a b = Except.ok u →
      a.data <:+: (ExcelProcess.copy_file_to_sandbox sb a b).data ∧
      b.data <:+: (ExcelProcess.copy_file_to_sandbox sb a b).data) ∧
    (∀ e, sb.copy_to_runtime a b = Except.error e →
      e.data <:+: (ExcelProcess.copy_file_to_sandbox sb a b).data) ∧
    (∀ u, sb.copy_from_runtime a b = Except.ok u →
      a.data <:+: (ExcelProcess.copy_file_from_sandbox sb a b).data ∧
      b.data <:+: (ExcelProcess.copy_file_from_sandbox sb a b).data) ∧
    (∀ e, sb.copy_from_runtime a b = Except.error e →
      e.data <:+: (ExcelProcess.copy_file_from_sandbox sb a b).data) := by
  refine ⟨rfl, rfl, ?_, ?_, ?_, ?_⟩
  · intro u hu
    unfold ExcelProcess.copy_file_to_sandbox
    rw [hu]
    constructor
    · exact substr_of_eq "文件已成功复制到沙盒: ".data (" -> " ++ b).data
        (by simp [str_data_append, List.append_assoc])
    · exact substr_of_eq ("文件已成功复制到沙盒: " ++ a ++ " -> ").data []
        (by simp [str_data_append, List.append_assoc])
  · intro e he
    unfold ExcelProcess.copy_file_to_sandbox
    rw [he]
    exact substr_of_eq "复制文件失败: ".data []
      (by simp [str_data_append, List.append_assoc])
  · intro u hu
    unfold ExcelProcess.copy_file_from_sandbox
    rw [hu]
    constructor
    · exact substr_of_eq "文件已成功从沙盒复制: ".data (" -> " ++ b).data
        (by simp [str_data_append, List.append_assoc])
    · exact substr_of_eq ("文件已成功从沙盒复制: " ++ a ++ " -> ").data []
        (by simp [str_data_append, List.append_assoc])
  · intro e he
    unfold ExcelProcess.copy_file_from_sandbox
    rw [he]
    exact substr_of_eq "复制文件失败: ".data []
      (by simp [str_data_append, List.append_assoc])

theorem copy_tools_textual_results_witness :
    ("boom".data <:+: (ExcelProcess.copy_file_to_sandbox sbFail "/a" "/b").data) ∧
    ("/a".data <:+: (ExcelProcess.copy_file_to_sandbox sbOk "/a" "/b").data) :=
  ⟨(copy_tools_textual_results sbFail "/a" "/b").2.2.2.1 "boom" rfl,
   ((copy_tools_textual_results sbOk "/a" "/b").2.2.1 () rfl).1⟩

/-- C8: run_code has no exception handler: a sandbox failure (the
oracle covering session start, library install and execution inside the
with-block) propagates out of run_code in both variants, and out of the
tool dispatch, instead of being converted to a tool-result string. -/
theorem run_code_propagates_exceptions (sb : Sandbox) (lang code : String)
    (libraries : Option (List String)) (e : String)
    (h : sb.run lang code libraries = Except.error e) :
    ExcelProcess.run_code sb lang code libraries = Except.error e ∧
    App.run_code sb lang code libraries = Except.error e ∧
    (∀ (prev : Option String) (tc : ToolCall), tc.name = "run_code" →
      tc.args.lang = some lang → tc.args.code = some code →
      tc.args.libraries = libraries →
      ExcelProcess.dispatchToolCall sb prev tc = Except.error e ∧
      App.dispatchToolCall sb prev tc = Except.error e) := by
  have h1 : ExcelProcess.run_code sb lang code libraries = Except.error e := by
    unfold ExcelProcess.run_code
    rw [h]
  have h2 : App.run_code sb lang code libraries = Except.error e := by
    unfold App.run_code
    rw [h]
  refine ⟨h1, h2, ?_⟩
  intro prev tc hname hlang hcode hlib
  constructor
  · unfold ExcelProcess.dispatchToolCall
    rw [hname, if_pos rfl, hlang, hcode, hlib]
    exact h1
  · unfold App.dispatchToolCall
    rw [hname, if_pos rfl, hlang, hcode, hlib]
    simp only [pyStr, h2]

theorem run_code_propagates_exceptions_witness :
    (ExcelProcess.run_code sbFail "python" "print(1)" none = Except.error "boom") ∧
    (ExcelProcess.dispatchToolCall sbFail none runCodeCall = Except.error "boom") :=
  ⟨(run_code_propagates_exceptions sbFail "python" "print(1)" none "boom" rfl).1,
   ((run_code_propagates_exceptions sbFail "python" "print(1)" none "boom" rfl).2.2
      none runCodeCall rfl rfl rfl rfl).1⟩

/-- The CLI per-turn loop yields one tool message per call, in order,
echoing each call's identifier with role tool. -/
lemma processToolCalls_messages (sb : Sandbox) :
    ∀ (tcs : List ToolCall) (prev : Option String) (tms : List Message)
      (last : Option String),
      ExcelProcess.processToolCalls sb prev tcs = Except.ok (tms, last) →
      tms.map Message.tool_call_id = tcs.map (fun tc => some tc.id) ∧
      tms.map Message.role = tcs.map (fun _ => Role.tool) ∧
      tms.length = tcs.length := by
  intro tcs
  induction tcs with
  | nil =>
    intro prev tms last h
    simp only [ExcelProcess.processToolCalls, Except.ok.injEq, Prod.mk.injEq] at h
    obtain ⟨h1, _⟩ := h
    subst h1
    simp
  | cons tc rest ih =>
    intro prev tms last h
    simp only [ExcelProcess.processToolCalls] at h
    cases hd : ExcelProcess.dispatchToolCall sb prev tc with
    | error e => simp only [hd] at h; cases h
    | ok r =>
      simp only [hd] at h
      cases hrest : ExcelProcess.processToolCalls sb (some r) rest with
      | error e => simp only [hrest] at h; cases h
      | ok p =>
        obtain ⟨tms2, last2⟩ := p
        simp only [hrest] at h
        simp only [Except.ok.injEq, Prod.mk.injEq] at h
        obtain ⟨htms, _⟩ := h
        subst htms
        obtain ⟨h1, h2, h3⟩ := ih (some r) tms2 last2 hrest
        simp [toolMessage, h1, h2, h3]

/-- The app per-turn loop yields one tool message per call, in order,
echoing each call's identifier with role tool, and adds to
generated_files exactly the local_path arguments of its
copy_file_from_sandbox calls. -/
lemma app_processToolCalls_spec (sb : Sandbox) :
    ∀ (tcs : List ToolCall) (prev : Option String) (tms : List Message)
      (outs : List App.Output) (gens : List String) (last : Option String),
      App.processToolCalls sb prev tcs = Except.ok (tms, outs, gens, last) →
      tms.map Message.tool_call_id = tcs.map (fun tc => some tc.id) ∧
      tms.map Message.role = tcs.map (fun _ => Role.tool) ∧
      tms.length = tcs.length ∧
      gens = turnCopyFromPaths tcs := by
  intro tcs
  induction tcs with
  | nil =>
    intro prev tms outs gens last h
    simp only [App.processToolCalls, Except.ok.injEq, Prod.mk.injEq] at h
    obtain ⟨h1, _, h3, _⟩ := h
    subst h1
    subst h3
    simp [turnCopyFromPaths]
  | cons tc rest ih =>
    intro prev tms outs gens last h
    simp only [App.processToolCalls] at h
    cases hd : App.dispatchToolCall sb prev tc with
    | error e => simp only [hd] at h; cases h
    | ok trip =>
      obtain ⟨r, outs1, gens1⟩ := trip
      simp only [hd] at h
      cases hrest : App.processToolCalls sb (some r) rest with
      | error e => simp only [hrest] at h; cases h
      | ok q =>
        obtain ⟨tms2, outs2, gens2, last2⟩ := q
        simp only [hrest] at h
        simp only [Except.ok.injEq, Prod.mk.injEq] at h
        obtain ⟨htms, _, hgens, _⟩ := h
        subst htms
        subst hgens
        obtain ⟨h1, h2, h3, h4⟩ := ih (some r) tms2 outs2 gens2 last2 hrest
        have hgens1 : gens1 = if tc.name = "copy_file_from_sandbox"
            then [pyStr tc.args.local_path] else [] := by
          unfold App.dispatchToolCall at hd
          by_cases hn1 : tc.name = "run_code"
          · rw [if_pos hn1] at hd
            rw [if_neg (by rw [hn1]; decide)]
            cases hrc : App.run_code sb (pyStr tc.args.lang) (pyStr tc.args.code)
                tc.args.libraries with
            | error e => rw [hrc] at hd; cases hd
            | ok v =>
              rw [hrc] at hd
              simp only [Except.ok.injEq, Prod.mk.injEq] at hd
              exact hd.2.2.symm
          · rw [if_neg hn1] at hd
            by_cases hn2 : tc.name = "copy_file_to_sandbox"
            · rw [if_pos hn2] at hd
              rw [if_neg (by rw [hn2]; decide)]
              simp only [Except.ok.injEq, Prod.mk.injEq] at hd
              exact hd.2.2.symm
            · rw [if_neg hn2] at hd
              by_cases hn3 : tc.name = "copy_file_from_sandbox"
              · rw [if_pos hn3] at hd
                rw [if_pos hn3]
                simp only [Except.ok.injEq, Prod.mk.injEq] at hd
                exact hd.2.2.symm
              · rw [if_neg hn3] at hd
                rw [if_neg hn3]
                cases prev with
                | none => cases hd
                | some r0 =>
                  simp only [Except.ok.injEq, Prod.mk.injEq] at hd
                  exact hd.2.2.symm
        constructor
        · simp [toolMessage, h1]
        constructor
        · simp [toolMessage, h2]
        constructor
        · simp [h3]
        · rw [hgens1, h4, turnCopyFromPaths, turnCopyFromPaths, List.filterMap_cons]
          by_cases hn : tc.name = "copy_file_from_sandbox"
          · simp [hn]
          · simp [hn]

/-- C2: an assistant turn with a non-empty tool-call list makes the loop
append, between this model call and the next, exactly one tool-role
message per call, carrying the call's identifier, in emitted order — in
both the CLI loop and the Streamlit loop. -/
theorem tool_messages_one_per_call (sb : Sandbox) (prev last alast : Option String)
    (tcs : List ToolCall) (tms atms : List Message) (aouts : List App.Output)
    (agens : List String)
    (h : ExcelProcess.processToolCalls sb prev tcs = Except.ok (tms, last))
    (ha : App.processToolCalls sb prev tcs = Except.ok (atms, aouts, agens, alast))
    (am : AssistantMsg) (rest : List (Except String AssistantMsg))
    (messages : List Message) (all_outputs : List App.Output)
    (generated_files : List String) (mc dr : Nat) (cwd : String)
    (hcalls : am.tool_calls = tcs) (hne : tcs ≠ []) :
    (tms.map Message.tool_call_id = tcs.map (fun tc => some tc.id) ∧
     tms.map Message.role = tcs.map (fun _ => Role.tool) ∧
     tms.length = tcs.length) ∧
    (atms.map Message.tool_call_id = tcs.map (fun tc => some tc.id) ∧
     atms.map Message.role = tcs.map (fun _ => Role.tool) ∧
     atms.length = tcs.length) ∧
    (ExcelProcess.runLoop sb cwd (Except.ok am :: rest) messages generated_files prev mc dr =
      ExcelProcess.runLoop sb cwd rest ((messages ++ [assistantMessage am]) ++ tms)
        generated_files last (mc + 1) (dr + 1)) ∧
    (App.runLoop sb (Except.ok am :: rest) messages all_outputs generated_files prev mc dr =
      App.runLoop sb rest ((messages ++ [assistantMessage am]) ++ atms)
        ((all_outputs ++ App.aiEvents am.content) ++ aouts)
        (generated_files ++ agens) alast (mc + 1) (dr + 1)) := by
  have hE : tcs.isEmpty = false := by
    cases tcs with
    | nil => exact absurd rfl hne
    | cons a l => rfl
  obtain ⟨h1, h2, h3⟩ := processToolCalls_messages sb tcs prev tms last h
  obtain ⟨g1, g2, g3, _⟩ := app_processToolCalls_spec sb tcs prev atms aouts agens alast ha
  refine ⟨⟨h1, h2, h3⟩, ⟨g1, g2, g3⟩, ?_, ?_⟩
  · simp [ExcelProcess.runLoop, hcalls, hE, h]
  · simp [App.runLoop, hcalls, hE, ha]

theorem tool_messages_one_per_call_witness :
    [toolMessage mysteryCall "r0"].map Message.tool_call_id
      = [mysteryCall].map (fun tc => some tc.id) ∧
    ExcelProcess.runLoop sbOk "/cwd"
        [Except.ok { content := some "go", tool_calls := [mysteryCall] }] [] [] (some "r0") 0 0 =
      ExcelProcess.runLoop sbOk "/cwd" []
        (([] ++ [assistantMessage { content := some "go", tool_calls := [mysteryCall] }]) ++
          [toolMessage mysteryCall "r0"])
        [] (some "r0") (0 + 1) (0 + 1) := by
  have h := tool_messages_one_per_call sbOk (some "r0") (some "r0") (some "r0")
    [mysteryCall] [toolMessage mysteryCall "r0"] [toolMessage mysteryCall "r0"] [] []
    (by decide) (by decide)
    { content := some "go", tool_calls := [mysteryCall] } [] [] [] [] 0 0 "/cwd"
    rfl (by decide)
  exact ⟨h.1.1, h.2.2.1⟩

/-- Dispatch succeeds on a recognised name when the sandbox never raises. -/
lemma dispatchToolCall_ok (sb : Sandbox) (prev : Option String) (tc : ToolCall)
    (hrun : ∀ l c ls, ∃ t, sb.run l c ls = Except.ok t)
    (hname : tc.name ∈ knownToolNames) :
    ∃ r, ExcelProcess.dispatchToolCall sb prev tc = Except.ok r := by
  simp only [knownToolNames, List.mem_cons, List.mem_singleton, List.not_mem_nil,
    or_false] at hname
  unfold ExcelProcess.dispatchToolCall
  rcases hname with hn | hn | hn
  · rw [hn, if_pos rfl]
    obtain ⟨t, ht⟩ := hrun (pyStr tc.args.lang) (pyStr tc.args.code) tc.args.libraries
    simp only [ExcelProcess.run_code, ht]
    split
    · exact ⟨_, rfl⟩
    · exact ⟨_, rfl⟩
  · rw [hn, if_neg (by decide), if_pos rfl]
    exact ⟨_, rfl⟩
  · rw [hn, if_neg (by decide), if_neg (by decide), if_pos rfl]
    exact ⟨_, rfl⟩

/-- A turn of recognised calls dispatches fully when the sandbox never
raises. -/
lemma processToolCalls_ok (sb : Sandbox)
    (hrun : ∀ l c ls, ∃ t, sb.run l c ls = Except.ok t) :
    ∀ (tcs : List ToolCall) (prev : Option String),
      (∀ tc ∈ tcs, tc.name ∈ knownToolNames) →
      ∃ tms last, ExcelProcess.processToolCalls sb prev tcs = Except.ok (tms, last) := by
  intro tcs
  induction tcs with
  | nil =>
    intro prev _
    exact ⟨[], prev, rfl⟩
  | cons tc rest ih =>
    intro prev hall
    obtain ⟨r, hr⟩ := dispatchToolCall_ok sb prev tc hrun (hall tc (List.mem_cons_self tc rest))
    obtain ⟨tms, last, hrest⟩ := ih (some r) (fun x hx => hall x (List.mem_cons_of_mem tc hx))
    refine ⟨toolMessage tc r :: tms, last, ?_⟩
    simp only [ExcelProcess.processToolCalls, hr, hrest]

/-- The CLI loop on a script of N tool-call turns followed by a final
turn: it terminates with N dispatch rounds, one model call per round
plus a final one, and the final turn's text. -/
lemma runLoop_scripted (sb : Sandbox) (cwd : String)
    (hrun : ∀ l c ls, ∃ t, sb.run l c ls = Except.ok t) :
    ∀ (turns : List AssistantMsg) (finalMsg : AssistantMsg),
      (∀ am ∈ turns, am.tool_calls ≠ [] ∧ ∀ tc ∈ am.tool_calls, tc.name ∈ knownToolNames) →
      finalMsg.tool_calls = [] →
      ∀ (messages : List Message) (prev : Option String) (mc dr : Nat),
      ∃ r, ExcelProcess.runLoop sb cwd (turns.map Except.ok ++ [Except.ok finalMsg])
            messages [] prev mc dr = Except.ok r ∧
        r.dispatchRounds = dr + turns.length ∧
        r.modelCalls = mc + turns.length + 1 ∧
        r.final = finalMsg.content := by
  intro turns
  induction turns with
  | nil =>
    intro finalMsg _ hfinal messages prev mc dr
    have hstep : ExcelProcess.runLoop sb cwd (List.map Except.ok [] ++ [Except.ok finalMsg])
        messages [] prev mc dr =
        Except.ok { final := finalMsg.content, finalContent := finalMsg.content,
                    modelCalls := mc + 1, dispatchRounds := dr,
                    conversation := messages ++ [assistantMessage finalMsg] } := by
      simp [ExcelProcess.runLoop, hfinal]
    exact ⟨_, hstep, by simp, by simp, rfl⟩
  | cons am turns ih =>
    intro finalMsg hturns hfinal messages prev mc dr
    obtain ⟨hne, hnames⟩ := hturns am (List.mem_cons_self am turns)
    obtain ⟨tms, last, hp⟩ := processToolCalls_ok sb hrun am.tool_calls prev hnames
    have hE : am.tool_calls.isEmpty = false := by
      cases hcase : am.tool_calls with
      | nil => exact absurd hcase hne
      | cons a l => rfl
    obtain ⟨r, hr, h1, h2, h3⟩ := ih finalMsg
      (fun x hx => hturns x (List.mem_cons_of_mem am hx)) hfinal
      ((messages ++ [assistantMessage am]) ++ tms) last (mc + 1) (dr + 1)
    refine ⟨r, ?_, ?_, ?_, h3⟩
    · show ExcelProcess.runLoop sb cwd
        (Except.ok am :: (turns.map Except.ok ++ [Except.ok finalMsg]))
        messages [] prev mc dr = Except.ok r
      simp only [ExcelProcess.runLoop, hE, Bool.false_eq_true, if_false, hp]
      exact hr
    · rw [h1]
      simp only [List.length_cons]
      omega
    · rw [h2]
      simp only [List.length_cons]
      omega

/-- C3: a scripted model that returns tool-call turns for N rounds (every
call recognised, the sandbox never raising) and then a turn without tool
calls makes the CLI agent loop terminate after exactly N dispatch rounds
and N+1 model calls, returning the final turn's text. -/
theorem scripted_loop_rounds (sb : Sandbox) (turns : List AssistantMsg)
    (finalMsg : AssistantMsg) (user cwd : String) (file : Option String)
    (hrun : ∀ l c ls, ∃ t, sb.run l c ls = Except.ok t)
    (hturns : ∀ am ∈ turns, am.tool_calls ≠ [] ∧
      ∀ tc ∈ am.tool_calls, tc.name ∈ knownToolNames)
    (hfinal : finalMsg.tool_calls = []) :
    ∃ r, ExcelProcess.run_agent sb (turns.map Except.ok ++ [Except.ok finalMsg])
          user file cwd = Except.ok r ∧
      r.dispatchRounds = turns.length ∧
      r.modelCalls = turns.length + 1 ∧
      r.final = finalMsg.content := by
  obtain ⟨r, hr, h1, h2, h3⟩ := runLoop_scripted sb cwd hrun turns finalMsg hturns hfinal
    (ExcelProcess.run_agent_init sb user file) none 0 0
  refine ⟨r, hr, ?_, ?_, h3⟩
  · omega
  · omega

/-- One tool-call turn followed by a final answer. -/
def oneTurn : List AssistantMsg := [{ content := some "step1", tool_calls := [runCodeCall] }]

theorem scripted_loop_rounds_witness :
    ((ExcelProcess.run_agent sbOk (oneTurn.map Except.ok ++
        [Except.ok { content := some "done", tool_calls := [] }]) "hi" none "/cwd").map
      ExcelProcess.Outcome.dispatchRounds = Except.ok 1) ∧
    ((ExcelProcess.run_agent sbOk (oneTurn.map Except.ok ++
        [Except.ok { content := some "done", tool_calls := [] }]) "hi" none "/cwd").map
      ExcelProcess.Outcome.modelCalls = Except.ok 2) ∧
    ((ExcelProcess.run_agent sbOk (oneTurn.map Except.ok ++
        [Except.ok { content := some "done", tool_calls := [] }]) "hi" none "/cwd").map
      ExcelProcess.Outcome.final = Except.ok (some "done")) := by
  obtain ⟨r, hr, h1, h2, h3⟩ := scripted_loop_rounds sbOk oneTurn
    { content := some "done", tool_calls := [] } "hi" "/cwd" none
    (fun _ _ _ => ⟨"out1", rfl⟩) (by decide) rfl
  rw [hr]
  simp only [Except.map]
  exact ⟨by rw [h1]; rfl, by rw [h2]; rfl, by rw [h3]⟩

/-- C5 counterexample: the initial conversation is never exactly
[system-prompt message, user message] — the CLI variant has no system
message at all, and the Streamlit variant has three messages. -/
theorem initial_conversation_counterexample :
    ((ExcelProcess.run_agent_init sbOk "帮我分析数据" none).map Message.role
      ≠ [Role.system, Role.user]) ∧
    ((App.run_agent_init sbOk rdFail "帮我分析数据" (some "/tmp/data.xlsx")).messages.map
      Message.role ≠ [Role.system, Role.user]) := by
  decide

/-- C5 amended: the CLI initial conversation is exactly one user message
carrying the request text plus, when a file is supplied, the staged
sandbox path (which preserves the file's basename); the Streamlit
initial conversation is exactly [system, user, canned assistant], the
user message carrying only the request text, with the staged path (and
preview) appended to the system message. -/
theorem initial_conversation_shape (sb : Sandbox)
    (rd : String → Except String App.DataFrame) (u p : String) :
    (ExcelProcess.run_agent_init sb u none
      = [{ role := Role.user, content := some u }]) ∧
    (ExcelProcess.run_agent_init sb u (some p)
      = [{ role := Role.user,
           content := some (u ++ ("\n\nExcel文件已上传到沙盒环境，路径为: " ++
             ("/sandbox" ++ "/" ++ basename p))) }]) ∧
    ((App.run_agent_init sb rd u none).messages
      = [{ role := Role.system, content := some App.systemPrompt },
         { role := Role.user, content := some u },
         { role := Role.assistant,
           content := some "好的，请稍等，我正在分析您的需求并生成代码。" }]) ∧
    (∀ df, rd p = Except.ok df →
      (App.run_agent_init sb rd u (some p)).messages
        = [{ role := Role.system,
             content := some (App.systemPrompt ++
               ("\n\nExcel文件已上传到沙盒环境，路径为: " ++
                 ("/sandbox/" ++ basename p) ++ App.excelInfo (basename p) df)) },
           { role := Role.user, content := some u },
           { role := Role.assistant,
             content := some "好的，请稍等，我正在分析您的需求并生成代码。" }]) ∧
    (∀ e, rd p = Except.error e →
      (App.run_agent_init sb rd u (some p)).messages
        = [{ role := Role.system,
             content := some (App.systemPrompt ++
               ("\n\nExcel文件已上传到沙盒环境，路径为: " ++
                 ("/sandbox/" ++ basename p))) },
           { role := Role.user, content := some u },
           { role := Role.assistant,
             content := some "好的，请稍等，我正在分析您的需求并生成代码。" }]) := by
  refine ⟨rfl, rfl, rfl, ?_, ?_⟩
  · intro df hrd
    simp [App.run_agent_init, hrd, appendToFirstContent]
  · intro e hrd
    simp [App.run_agent_init, hrd, appendToFirstContent]

theorem initial_conversation_shape_witness :
    ((App.run_agent_init sbOk rdOk "分析" (some "/tmp/a.xlsx")).messages
      = [{ role := Role.system,
           content := some (App.systemPrompt ++
             ("\n\nExcel文件已上传到沙盒环境，路径为: " ++
               ("/sandbox/" ++ basename "/tmp/a.xlsx") ++
               App.excelInfo (basename "/tmp/a.xlsx") dfOk)) },
         { role := Role.user, content := some "分析" },
         { role := Role.assistant,
           content := some "好的，请稍等，我正在分析您的需求并生成代码。" }]) ∧
    ((App.run_agent_init sbOk rdFail "分析" (some "/tmp/a.xlsx")).messages
      = [{ role := Role.system,
           content := some (App.systemPrompt ++
             ("\n\nExcel文件已上传到沙盒环境，路径为: " ++
               ("/sandbox/" ++ basename "/tmp/a.xlsx"))) },
         { role := Role.user, content := some "分析" },
         { role := Role.assistant,
           content := some "好的，请稍等，我正在分析您的需求并生成代码。" }]) :=
  ⟨(initial_conversation_shape sbOk rdOk "分析" "/tmp/a.xlsx").2.2.2.1 dfOk rfl,
   (initial_conversation_shape sbOk rdFail "分析" "/tmp/a.xlsx").2.2.2.2 "boom" rfl⟩

/-- C9: when preview extraction raises, the Streamlit variant absorbs
the exception: a warning banner is shown, the system message still gets
the staged destination path appended (and nothing else), and the loop
still proceeds to call the model. -/
theorem preview_failure_absorbed (sb : Sandbox)
    (rd : String → Except String App.DataFrame)
    (script : List (Except String AssistantMsg)) (u p e : String)
    (h : rd p = Except.error e) :
    ((App.run_agent_init sb rd u (some p)).warnings
      = ["无法提取Excel预览: " ++ e]) ∧
    ((App.run_agent_init sb rd u (some p)).messages.map Message.role
      = [Role.system, Role.user, Role.assistant]) ∧
    (((App.run_agent_init sb rd u (some p)).messages.map Message.content).get? 0
      = some (some (App.systemPrompt ++ ("\n\nExcel文件已上传到沙盒环境，路径为: " ++
          ("/sandbox/" ++ basename p))))) ∧
    ((App.run_agent sb rd script u (some p)).2
      = App.runLoop sb script (App.run_agent_init sb rd u (some p)).messages [] [] none 0 0) ∧
    (∀ (c : String) (rest : List (Except String AssistantMsg)),
      ∃ r, (App.run_agent sb rd
              (Except.ok { content := some c, tool_calls := [] } :: rest) u (some p)).2
            = Except.ok r ∧ r.modelCalls = 1 ∧ r.final = some c) := by
  refine ⟨?_, ?_, ?_, rfl, ?_⟩
  · simp [App.run_agent_init, h]
  · simp [App.run_agent_init, h, appendToFirstContent]
  · simp [App.run_agent_init, h, appendToFirstContent, Option.getD]
  · intro c rest
    refine ⟨_, rfl, rfl, rfl⟩

theorem preview_failure_absorbed_witness :
    ((App.run_agent_init sbOk rdFail "分析" (some "/tmp/a.xlsx")).warnings
      = ["无法提取Excel预览: " ++ "boom"]) ∧
    ((App.run_agent_init sbOk rdFail "分析" (some "/tmp/a.xlsx")).messages.map Message.role
      = [Role.system, Role.user, Role.assistant]) :=
  ⟨(preview_failure_absorbed sbOk rdFail [] "分析" "/tmp/a.xlsx" "boom" rfl).1,
   (preview_failure_absorbed sbOk rdFail [] "分析" "/tmp/a.xlsx" "boom" rfl).2.1⟩

/-- The app loop accumulates in generated_files exactly the local_path
arguments of the copy_file_from_sandbox calls of the turns it processes,
and its final_result carries the trailer precisely when that list is
non-empty. -/
lemma app_runLoop_generated (sb : Sandbox) :
    ∀ (script : List (Except String AssistantMsg)) (messages : List Message)
      (outs : List App.Output) (gen : List String) (prev : Option String)
      (mc dr : Nat) (r : App.Outcome),
      App.runLoop sb script messages outs gen prev mc dr = Except.ok r →
      r.generated_files = gen ++ scriptCopyFromPaths script ∧
      (r.generated_files = [] → r.final = r.finalContent) ∧
      (r.generated_files ≠ [] → ∃ c, r.finalContent = some c ∧
        r.final = some (c ++ "\n\n生成的文件:\n" ++
          String.intercalate "\n" r.generated_files)) := by
  intro script
  induction script with
  | nil =>
    intro messages outs gen prev mc dr r h
    simp only [App.runLoop] at h
    cases h
  | cons entry rest ih =>
    intro messages outs gen prev mc dr r h
    cases entry with
    | error e =>
      simp only [App.runLoop] at h
      cases h
    | ok am =>
      simp only [App.runLoop] at h
      by_cases hE : am.tool_calls.isEmpty
      · rw [if_pos hE] at h
        have hscript : scriptCopyFromPaths (Except.ok am :: rest) = [] := by
          simp [scriptCopyFromPaths, hE]
        by_cases hg : gen.isEmpty
        · rw [if_pos hg] at h
          have hgen : gen = [] := List.isEmpty_iff.mp hg
          cases h
          subst hgen
          refine ⟨by simp [hscript], fun _ => rfl, fun hne => absurd rfl hne⟩
        · rw [if_neg hg] at h
          cases hc : am.content with
          | none => rw [hc] at h; cases h
          | some c =>
            rw [hc] at h
            cases h
            have hgen : gen ≠ [] := fun h0 => hg (by simp [h0])
            refine ⟨by simp [hscript], fun h0 => absurd h0 hgen, fun _ => ⟨c, rfl, rfl⟩⟩
      · rw [if_neg hE] at h
        cases hp : App.processToolCalls sb prev am.tool_calls with
        | error e => rw [hp] at h; cases h
        | ok q =>
          obtain ⟨tms, outs2, gens2, last2⟩ := q
          rw [hp] at h
          obtain ⟨h1, h2, h3⟩ := ih _ _ _ _ _ _ _ h
          have hgens : gens2 = turnCopyFromPaths am.tool_calls :=
            (app_processToolCalls_spec sb am.tool_calls prev tms outs2 gens2 last2 hp).2.2.2
          have hscript : scriptCopyFromPaths (Except.ok am :: rest)
              = turnCopyFromPaths am.tool_calls ++ scriptCopyFromPaths rest := by
            simp only [scriptCopyFromPaths]
            rw [if_neg (by simpa using hE)]
          refine ⟨?_, h2, h3⟩
          rw [h1, hgens, hscript, List.append_assoc]

/-- The CLI loop started with empty generated_files (as run_agent starts
it) never appends a trailer: its final result is the assistant text. -/
lemma cli_runLoop_no_trailer (sb : Sandbox) (cwd : String) :
    ∀ (script : List (Except String AssistantMsg)) (messages : List Message)
      (prev : Option String) (mc dr : Nat) (r : ExcelProcess.Outcome),
      ExcelProcess.runLoop sb cwd script messages [] prev mc dr = Except.ok r →
      r.final = r.finalContent := by
  intro script
  induction script with
  | nil =>
    intro messages prev mc dr r h
    simp only [ExcelProcess.runLoop] at h
    cases h
  | cons entry rest ih =>
    intro messages prev mc dr r h
    cases entry with
    | error e =>
      simp only [ExcelProcess.runLoop] at h
      cases h
    | ok am =>
      simp only [ExcelProcess.runLoop] at h
      by_cases hE : am.tool_calls.isEmpty
      · rw [if_pos hE] at h
        simp only [List.isEmpty_nil, if_true, if_pos] at h
        cases h
        rfl
      · rw [if_neg hE] at h
        cases hp : ExcelProcess.processToolCalls sb prev am.tool_calls with
        | error e => rw [hp] at h; cases h
        | ok q =>
          obtain ⟨tms, last⟩ := q
          rw [hp] at h
          exact ih _ _ _ _ _ h

/-- C6 counterexample: in the CLI variant a file is fetched from the
sandbox (the copy succeeds) and yet the returned final result is the
assistant's text alone, with no trailer appended. -/
theorem cli_fetch_no_trailer_counterexample :
    ((ExcelProcess.run_agent sbOk fetchScript "hi" none "/cwd").map
      ExcelProcess.Outcome.final = Except.ok (some "done")) ∧
    (ExcelProcess.copy_file_from_sandbox sbOk "/sandbox/out.png" "/tmp/out.png"
      = "文件已成功从沙盒复制: /sandbox/out.png -> /tmp/out.png") ∧
    (scriptCopyFromPaths fetchScript = ["/tmp/out.png"]) := by
  decide

/-- C6 amended: in the Streamlit variant, the session's generated_files
list equals the local-path arguments of all dispatched
copy_file_from_sandbox calls, and the computed final result carries the
trailer listing them exactly when that list is non-empty; in the CLI
variant generated_files is never populated, so the returned final
result always equals the assistant's text with no trailer, even when
files were fetched. -/
theorem final_files_trailer (sb : Sandbox)
    (rd : String → Except String App.DataFrame)
    (script : List (Except String AssistantMsg)) (u : String)
    (file : Option String) (cwd : String) (r : App.Outcome)
    (rc : ExcelProcess.Outcome)
    (happ : (App.run_agent sb rd script u file).2 = Except.ok r)
    (hcli : ExcelProcess.run_agent sb script u file cwd = Except.ok rc) :
    (r.generated_files = scriptCopyFromPaths script) ∧
    (r.generated_files = [] → r.final = r.finalContent) ∧
    (r.generated_files ≠ [] → ∃ c, r.finalContent = some c ∧
      r.final = some (c ++ "\n\n生成的文件:\n" ++
        String.intercalate "\n" r.generated_files)) ∧
    (rc.final = rc.finalContent) := by
  obtain ⟨h1, h2, h3⟩ := app_runLoop_generated sb script _ _ _ _ _ _ _ happ
  refine ⟨by simpa using h1, h2, h3, ?_⟩
  exact cli_runLoop_no_trailer sb cwd script _ _ _ _ _ hcli

theorem final_files_trailer_witness :
    ((App.run_agent sbOk rdOk fetchScript "hi" none).2.map App.Outcome.generated_files
      = Except.ok (scriptCopyFromPaths fetchScript)) ∧
    ((ExcelProcess.run_agent sbOk fetchScript "hi" none "/cwd").map
        ExcelProcess.Outcome.final
      = (ExcelProcess.run_agent sbOk fetchScript "hi" none "/cwd").map
        ExcelProcess.Outcome.finalContent) := by
  obtain ⟨r, hr⟩ : ∃ r, (App.run_agent sbOk rdOk fetchScript "hi" none).2
      = Except.ok r := ⟨_, rfl⟩
  obtain ⟨rc, hc⟩ : ∃ rc, ExcelProcess.run_agent sbOk fetchScript "hi" none "/cwd"
      = Except.ok rc := ⟨_, rfl⟩
  have h := final_files_trailer sbOk rdOk fetchScript "hi" none "/cwd" r rc hr hc
  rw [hr, hc]
  simp only [Except.map]
  exact ⟨by rw [h.1], by rw [h.2.2.2]⟩

/-- C7 counterexample: no file path is supplied, yet the process exit
status is non-zero, because the model call raises and the exception
propagates uncaught out of run_agent. -/
theorem cli_exit_nonzero_counterexample :
    ExcelProcess.mainExit sbOk [Except.error "APIConnectionError"] (fun _ => true)
      "" "hi" "/cwd" ≠ 0 := by
  decide

/-- C7 amended: the CLI process exits with status zero iff the supplied
path check passes (no path, or the path exists) and run_agent returns
normally; it exits non-zero both when a supplied path does not exist
and when an uncaught exception propagates out of run_agent. -/
theorem cli_exit_status_iff (sb : Sandbox)
    (script : List (Except String AssistantMsg)) (pathExists : String → Bool)
    (excel_path user_request cwd : String) :
    ExcelProcess.mainExit sb script pathExists excel_path user_request cwd = 0 ↔
      ((excel_path = "" ∨ pathExists excel_path = true) ∧
        ∃ r, ExcelProcess.run_agent sb script user_request
          (if excel_path ≠ "" then some excel_path else none) cwd = Except.ok r) := by
  unfold ExcelProcess.mainExit
  by_cases hcond : excel_path ≠ "" ∧ pathExists excel_path = false
  · rw [if_pos hcond]
    constructor
    · intro h0
      exact absurd h0 (by decide)
    · intro hc
      exfalso
      rcases hc.1 with h0 | h0
      · exact hcond.1 h0
      · rw [hcond.2] at h0
        cases h0
  · rw [if_neg hcond]
    cases hagent : ExcelProcess.run_agent sb script user_request
        (if excel_path ≠ "" then some excel_path else none) cwd with
    | error e =>
      show (1 : Nat) = 0 ↔ _
      constructor
      · intro h0
        exact absurd h0 (by decide)
      · intro hc
        exfalso
        obtain ⟨r, hr⟩ := hc.2
        cases hr
    | ok r =>
      show (0 : Nat) = 0 ↔ _
      constructor
      · intro _
        refine ⟨?_, ⟨r, rfl⟩⟩
        by_cases hp : excel_path = ""
        · exact Or.inl hp
        · refine Or.inr ?_
          by_cases hx : pathExists excel_path = true
          · exact hx
          · exact absurd ⟨hp, by simpa using hx⟩ hcond
      · intro _
        rfl

/-- C10 counterexample: a tool call with an unrecognised function name
that is the first call of its turn, but not the first of the session,
does not make the loop raise — the request completes, and the unknown
call's tool message carries the previous turn's stale result. -/
theorem unknown_tool_no_raise_counterexample :
    (ExcelProcess.run_agent sbOk staleResultScript "hi" none "/cwd").map
        (fun r => (r.conversation.filter
          (fun m => m.tool_call_id = some "call_b")).map Message.content)
      = Except.ok [some "out1"] := by
  decide

/-- C10 amended: an unrecognised function name raises
UnboundLocalError only when no tool call of the whole run_agent
invocation has assigned the local `result` yet (it is session-scoped,
not turn-scoped); otherwise the most recent prior call's result text is
appended as the Tool message for the unknown call's identifier. -/
theorem unknown_tool_session_scoped (sb : Sandbox) (tc : ToolCall)
    (h : tc.name ∉ knownToolNames) :
    (ExcelProcess.dispatchToolCall sb none tc = Except.error unboundResultError ∧
     App.dispatchToolCall sb none tc = Except.error unboundResultError) ∧
    (∀ r, ExcelProcess.dispatchToolCall sb (some r) tc = Except.ok r ∧
      App.dispatchToolCall sb (some r) tc = Except.ok (r, [], [])) ∧
    (∀ (r : String) (rest : List ToolCall),
      ExcelProcess.processToolCalls sb (some r) (tc :: rest) =
        (ExcelProcess.processToolCalls sb (some r) rest).map
          (fun p => (toolMessage tc r :: p.1, p.2))) ∧
    (∀ rest : List ToolCall,
      ExcelProcess.processToolCalls sb none (tc :: rest)
        = Except.error unboundResultError) := by
  simp only [knownToolNames, List.mem_cons, List.mem_singleton, List.not_mem_nil,
    or_false, not_or] at h
  obtain ⟨h1, h2, h3⟩ := h
  have hd1 : ExcelProcess.dispatchToolCall sb none tc = Except.error unboundResultError := by
    unfold ExcelProcess.dispatchToolCall
    rw [if_neg h1, if_neg h2, if_neg h3]
  have hd2 : ∀ r, ExcelProcess.dispatchToolCall sb (some r) tc = Except.ok r := by
    intro r
    unfold ExcelProcess.dispatchToolCall
    rw [if_neg h1, if_neg h2, if_neg h3]
  refine ⟨⟨hd1, ?_⟩, ?_, ?_, ?_⟩
  · unfold App.dispatchToolCall
    rw [if_neg h1, if_neg h2, if_neg h3]
  · intro r
    refine ⟨hd2 r, ?_⟩
    unfold App.dispatchToolCall
    rw [if_neg h1, if_neg h2, if_neg h3]
  · intro r rest
    simp only [ExcelProcess.processToolCalls, hd2 r]
    cases hres : ExcelProcess.processToolCalls sb (some r) rest with
    | error e => simp [Except.map]
    | ok p => simp [Except.map]
  · intro rest
    simp only [ExcelProcess.processToolCalls, hd1]

theorem unknown_tool_session_scoped_witness :
    (ExcelProcess.dispatchToolCall sbOk none mysteryCall
      = Except.error unboundResultError) ∧
    (ExcelProcess.dispatchToolCall sbOk (some "out1") mysteryCall
      = Except.ok "out1") := by
  have h := unknown_tool_session_scoped sbOk mysteryCall (by decide)
  exact ⟨h.1.1, (h.2.1 "out1").1⟩

end ExcelAgent
